import Mathlib

/-!
Shallow embedding of `src/index.py` (class `PublicAPIFetcher`): a small
fetch-and-display utility over three public JSON APIs.  JSON values are
modelled by an inductive type, Python exceptions by an error type, and the
methods of the class by pure functions threading the session state
explicitly.  The console is modelled as the list of printed strings.
-/

namespace PublicAPIFetcher

/-- A decoded JSON value, as produced by `response.json()`.  Python's `bool`
is kept separate from numbers at the data level, but participates in
`isinstance(x, (int, float))` checks below, as in Python.  A JSON number
literal is modelled exactly as the decimal `mant / 10 ^ exp10`; decoded
integers carry `exp10 = 0`, decoded floats a positive `exp10` (the rounding
boundary of binary floats is outside the embedding; all values the theorems
touch are exactly representable). -/
inductive JVal where
  | null : JVal
  | bool (b : Bool) : JVal
  | num (mant : Int) (exp10 : Nat) : JVal
  | str (s : String) : JVal
  | arr (xs : List JVal) : JVal
  | obj (kvs : List (String × JVal)) : JVal

/-- Python exceptions that the source can raise or catch, with their
`str(e)` message. -/
inductive PyError where
  | attributeError (msg : String) : PyError
  | typeError (msg : String) : PyError
  | valueError (msg : String) : PyError
deriving DecidableEq, Repr

/-- `str(e)` of an exception. -/
def pyErrStr : PyError → String
  | .attributeError m => m
  | .typeError m => m
  | .valueError m => m

/-- Outcome of a Python call: a normal return value, or an exception that
escaped past the call (the object state at that moment is threaded
separately, since an escaped exception leaves the object as it was). -/
inductive PyResult (α : Type) where
  | ok (a : α) : PyResult α
  | exn (e : PyError) : PyResult α
deriving DecidableEq, Repr

/-- Python's type name of a JSON-decoded value, for exception messages. -/
def pyTypeName : JVal → String
  | .null => "NoneType"
  | .bool _ => "bool"
  | .num _ e => if e = 0 then "int" else "float"
  | .str _ => "str"
  | .arr _ => "list"
  | .obj _ => "dict"

/-- First value bound to key `k` in a decoded JSON object (decoded objects
have unique keys). -/
def dictLookup (kvs : List (String × JVal)) (k : String) : Option JVal :=
  (kvs.find? (fun p => p.1 == k)).map (fun p => p.2)

/-- Python `dict.get(k, dflt)`. -/
def dictGet (kvs : List (String × JVal)) (k : String) (dflt : JVal) : JVal :=
  (dictLookup kvs k).getD dflt

/-- Python `v.get(k, dflt)` on an arbitrary value: only `dict` has `.get`,
any other receiver raises `AttributeError`. -/
def jGet (v : JVal) (k : String) (dflt : JVal) : Except PyError JVal :=
  match v with
  | .obj kvs => .ok (dictGet kvs k dflt)
  | _ => .error (.attributeError ("'" ++ pyTypeName v ++ "' object has no attribute 'get'"))

/-- Python `s.upper()` on a string (ASCII case mapping, the range the
theorems exercise). -/
def strUpper (s : String) : String :=
  String.mk (s.data.map Char.toUpper)

/-- Python `s.strip()` on a string: leading and trailing whitespace
removed. -/
def strStrip (s : String) : String :=
  String.mk (((s.data.dropWhile Char.isWhitespace).reverse.dropWhile
    Char.isWhitespace).reverse)

/-- Python `v.upper()` on an arbitrary value: only `str` has `.upper`. -/
def jUpper (v : JVal) : Except PyError String :=
  match v with
  | .str s => .ok (strUpper s)
  | _ => .error (.attributeError ("'" ++ pyTypeName v ++ "' object has no attribute 'upper'"))

/-- Python `len(v)` on a JSON-decoded value: defined for `list`, `str` and
`dict`, a `TypeError` otherwise. -/
def jLen (v : JVal) : Except PyError Nat :=
  match v with
  | .arr xs => .ok xs.length
  | .str s => .ok s.length
  | .obj kvs => .ok kvs.length
  | _ => .error (.typeError ("object of type '" ++ pyTypeName v ++ "' has no len()"))

/-- Python truthiness of a JSON-decoded value. -/
def jTruthy : JVal → Bool
  | .null => false
  | .bool b => b
  | .num m _ => decide (m ≠ 0)
  | .str s => !s.isEmpty
  | .arr xs => !xs.isEmpty
  | .obj kvs => !kvs.isEmpty

/-- Python iteration over a JSON-decoded value, as `for x in v` uses it:
lists yield their elements, strings their one-character substrings, dicts
their keys; other values raise `TypeError`. -/
def jIter (v : JVal) : Except PyError (List JVal) :=
  match v with
  | .arr xs => .ok xs
  | .str s => .ok (s.data.map (fun c => .str (String.mk [c])))
  | .obj kvs => .ok (kvs.map (fun p => .str p.1))
  | _ => .error (.typeError ("'" ++ pyTypeName v ++ "' object is not iterable"))

/-- Left-pad a digit string with zeros to width `d`. -/
def padZeros (s : String) (d : Nat) : String :=
  String.mk (List.replicate (d - s.length) '0') ++ s

/-- Python `str(x)` of the JSON number `m / 10 ^ e`: integers without a
decimal point, floats with their decimal expansion. -/
def numStr (m : Int) (e : Nat) : String :=
  if e = 0 then toString m
  else
    (if m < 0 then "-" else "")
      ++ toString (m.natAbs / 10 ^ e) ++ "."
      ++ padZeros (toString (m.natAbs % 10 ^ e)) e

/-- Python `repr(v)` of a JSON-decoded value (strings quoted, containers
rendered element-wise). -/
def pyRepr : JVal → String
  | .null => "None"
  | .bool true => "True"
  | .bool false => "False"
  | .num m e => numStr m e
  | .str s => "'" ++ s ++ "'"
  | .arr xs => "[" ++ String.intercalate ", " (xs.attach.map (fun x => pyRepr x.1)) ++ "]"
  | .obj kvs =>
    "\x7b" ++ String.intercalate ", "
        (kvs.attach.map (fun p => "'" ++ p.1.1 ++ "': " ++ pyRepr p.1.2)) ++ "\x7d"
decreasing_by
  · have := List.sizeOf_lt_of_mem x.2
    simp_all
    omega
  · obtain ⟨⟨k, v1⟩, hp⟩ := p
    have := List.sizeOf_lt_of_mem hp
    simp_all
    omega

/-- Python `str(v)` of a JSON-decoded value, as f-string interpolation
applies it: like `repr` except that strings appear unquoted. -/
def pyStr (v : JVal) : String :=
  match v with
  | .str s => s
  | _ => pyRepr v

/-- Nearest integer to the fraction `num / den` (`den > 0`), ties to the
even integer, as Python's fixed format rounding behaves on exactly
representable values. -/
def roundHalfEven (num den : Int) : Int :=
  let fl : Int := num.fdiv den
  let r : Int := num.fmod den
  if 2 * r < den then fl
  else if den < 2 * r then fl + 1
  else if fl % 2 = 0 then fl else fl + 1

/-- Split a reversed digit list into groups of three (thousands groups,
least significant first). -/
def chunk3 : List Char → List (List Char)
  | [] => []
  | a :: b :: c :: rest => [a, b, c] :: chunk3 rest
  | l => [l]

/-- Insert `,` thousands separators into the decimal digits of a natural
number. -/
def groupDigits (s : String) : String :=
  String.mk (List.intercalate [','] ((chunk3 s.data.reverse).reverse.map List.reverse))

/-- Python `format(x, ",.df")` of the number `m / 10 ^ e`: fixed-point
with `d` decimal places and thousands separators, as used for
`f"{price:,.2f}"` and `f"{market_cap:,.0f}"` in `_display_crypto`. -/
def formatFixed (m : Int) (e : Nat) (d : Nat) : String :=
  let scaled : Int := roundHalfEven (m * 10 ^ d) (10 ^ e)
  let n : Nat := scaled.natAbs
  (if scaled < 0 then "-" else "")
    ++ groupDigits (toString (n / 10 ^ d))
    ++ (if d = 0 then "" else "." ++ padZeros (toString (n % 10 ^ d)) d)

/-- `isinstance(x, (int, float))` on a JSON-decoded value; Python's `bool`
is a subclass of `int` and therefore counts as numeric. -/
def pyIsNumber : JVal → Bool
  | .num _ _ => true
  | .bool _ => true
  | _ => false

/-- Numeric value `(mant, exp10)` of a JSON-decoded number or boolean, as
arithmetic formatting sees it. -/
def pyNumVal : JVal → Int × Nat
  | .num m e => (m, e)
  | .bool b => (if b then 1 else 0, 0)
  | _ => (0, 0)

/-- One entry of the `APIS` class attribute. -/
structure APIConfig where
  url : String
  name : String
  fields : List String
deriving DecidableEq, Repr

/-- The static `APIS` registry of the three supported profiles. -/
def APIS : List (String × APIConfig) :=
  [("jsonplaceholder",
    { url := "https://jsonplaceholder.typicode.com/users",
      name := "JSONPlaceholder Users API",
      fields := ["name", "username", "email", "city"] }),
   ("randomuser",
    { url := "https://randomuser.me/api/?results=10",
      name := "Random User Generator API",
      fields := ["name", "email", "city", "country"] }),
   ("coingecko",
    { url := "https://api.coingecko.com/api/v3/coins/markets?vs_currency=usd&order=market_cap_desc&per_page=10&page=1",
      name := "CoinGecko Cryptocurrency API",
      fields := ["name", "symbol", "current_price", "market_cap"] })]

/-- Registry lookup by identifier (`self.APIS[api_type]`). -/
def lookupAPI (k : String) : Option APIConfig :=
  (APIS.find? (fun p => p.1 == k)).map (fun p => p.2)

/-- The mutable state of one `PublicAPIFetcher` instance: the fields set by
`__init__` plus `self.data` (which, despite its `Optional[List[Dict]]`
annotation, can hold any decoded JSON value the fetch assigned). -/
structure Session where
  api_type : String
  api_config : APIConfig
  data : Option JVal

/-- The `ValueError` message of `__init__` for an unknown identifier:
`str` of the f-string with `list(self.APIS.keys())`. -/
def invalidApiMsg : String :=
  "Invalid API type. Choose from: ['jsonplaceholder', 'randomuser', 'coingecko']"

/-- `PublicAPIFetcher.__init__`: validates the identifier against the
registry, binds the configuration, and leaves `self.data` unset. -/
def init (api_type : String) : Except PyError Session :=
  match lookupAPI api_type with
  | none => .error (.valueError invalidApiMsg)
  | some cfg => .ok { api_type := api_type, api_config := cfg, data := none }

/-- The environment's response to the single `requests.get` call:
a timeout, a transport-level connection failure, another request-level
failure (with its `str(e)`), or an HTTP response carrying a status code,
the `str(e)` a `raise_for_status` error would display, and the result of
decoding the body as JSON (`.error` with the parse message when the body is
not valid JSON). -/
inductive FetchOutcome where
  | timeout : FetchOutcome
  | connError : FetchOutcome
  | reqError (emsg : String) : FetchOutcome
  | response (status : Nat) (errStr : String) (body : Except String JVal) : FetchOutcome

/-- `response.raise_for_status()` raises `HTTPError` exactly for 4xx/5xx
status codes. -/
def raiseForStatusFails (status : Nat) : Bool :=
  400 ≤ status && status < 600

/-- Lines 60-64 of the source: the record list taken from the decoded
body — the `results` key (default `[]`) for `randomuser`, the body itself
for every other profile.  A `.get` on a non-object body raises. -/
def extractRecords (api_type : String) (j : JVal) : Except PyError JVal :=
  if api_type = "randomuser" then jGet j "results" (.arr [])
  else .ok j

/-- `PublicAPIFetcher.fetch_data`, given the environment's `FetchOutcome`.
Returns the call's result (normal boolean return, or an exception that
escaped the method), the session state afterwards, and the printed lines. -/
def fetch_data (s : Session) (o : FetchOutcome) : PyResult Bool × Session × List String :=
  let header : List String :=
    ["Fetching data from " ++ s.api_config.name ++ "...",
     "URL: " ++ s.api_config.url ++ "\n"]
  match o with
  | .timeout =>
    (.ok false, s, header ++ ["✗ Error: Request timed out. Please check your internet connection."])
  | .connError =>
    (.ok false, s, header ++ ["✗ Error: Failed to connect to the API. Please check your internet connection."])
  | .reqError emsg =>
    (.ok false, s, header ++ ["✗ Error: An error occurred while fetching data: " ++ emsg])
  | .response status errStr body =>
    if raiseForStatusFails status then
      (.ok false, s, header ++
        ["✗ Error: HTTP error occurred: " ++ errStr,
         "  Status Code: " ++ toString status])
    else
      match body with
      | .error emsg =>
        (.ok false, s, header ++ ["✗ Error: Failed to parse JSON response: " ++ emsg])
      | .ok j =>
        match extractRecords s.api_type j with
        | .error e => (.exn e, s, header)
        | .ok v =>
          let s1 : Session := { s with data := some v }
          match jLen v with
          | .error e => (.exn e, s1, header)
          | .ok n =>
            (.ok true, s1, header ++ ["✓ Successfully fetched " ++ toString n ++ " records.\n"])

/-- The 24-character separator `"-" * 24` closing each record block. -/
def sep24 : String := "------------------------"

/-- The 50-character separator `"-" * 50` printed after a record warning. -/
def sep50 : String := "--------------------------------------------------"

/-- `PublicAPIFetcher._display_user`: the lines printed for one
jsonplaceholder record, or the exception its field accesses raise. -/
def display_user (idx : Nat) (user : JVal) : Except PyError (List String) := do
  let name ← jGet user "name" (.str "N/A")
  let username ← jGet user "username" (.str "N/A")
  let email ← jGet user "email" (.str "N/A")
  let address ← jGet user "address" (.obj [])
  let city ← jGet address "city" (.str "N/A")
  pure ["User " ++ toString idx ++ ":",
        "Name: " ++ pyStr name,
        "Username: " ++ pyStr username,
        "Email: " ++ pyStr email,
        "City: " ++ pyStr city,
        sep24]

/-- `PublicAPIFetcher._display_random_user`. -/
def display_random_user (idx : Nat) (user : JVal) : Except PyError (List String) := do
  let name_obj ← jGet user "name" (.obj [])
  let firstName ← jGet name_obj "first" (.str "")
  let lastName ← jGet name_obj "last" (.str "")
  let joined := strStrip (pyStr firstName ++ " " ++ pyStr lastName)
  let name := if joined = "" then "N/A" else joined
  let email ← jGet user "email" (.str "N/A")
  let location1 ← jGet user "location" (.obj [])
  let city ← jGet location1 "city" (.str "N/A")
  let location2 ← jGet user "location" (.obj [])
  let country ← jGet location2 "country" (.str "N/A")
  pure ["User " ++ toString idx ++ ":",
        "Name: " ++ name,
        "Email: " ++ pyStr email,
        "City: " ++ pyStr city,
        "Country: " ++ pyStr country,
        sep24]

/-- `PublicAPIFetcher._display_crypto`. -/
def display_crypto (idx : Nat) (crypto : JVal) : Except PyError (List String) := do
  let name ← jGet crypto "name" (.str "N/A")
  let symbolVal ← jGet crypto "symbol" (.str "N/A")
  let symbol ← jUpper symbolVal
  let price ← jGet crypto "current_price" (.num 0 0)
  let market_cap ← jGet crypto "market_cap" (.num 0 0)
  pure ["Crypto " ++ toString idx ++ ":",
        "Name: " ++ pyStr name,
        "Symbol: " ++ symbol,
        (if pyIsNumber price
         then "Current Price: $" ++ formatFixed (pyNumVal price).1 (pyNumVal price).2 2
         else "Price: " ++ pyStr price),
        (if pyIsNumber market_cap
         then "Market Cap: $" ++ formatFixed (pyNumVal market_cap).1 (pyNumVal market_cap).2 0
         else "Market Cap: " ++ pyStr market_cap),
        sep24]

/-- Lines 110-116 of the source: dispatch on `self.api_type` inside the
display loop.  An identifier outside the three branches renders nothing
(and the loop still counts the record), as the if/elif chain does. -/
def formatRecord (api_type : String) (idx : Nat) (r : JVal) : Except PyError (List String) :=
  if api_type = "jsonplaceholder" then display_user idx r
  else if api_type = "randomuser" then display_random_user idx r
  else if api_type = "coingecko" then display_crypto idx r
  else .ok []

/-- The truth value of `filter_func and not filter_func(record)` being
false, i.e. whether the loop body proceeds past the filter. -/
def passesFilter (flt : Option (JVal → Bool)) (r : JVal) : Bool :=
  match flt with
  | some f => f r
  | none => true

/-- The test `limit and displayed_count >= limit`: `None` and `0` are
falsy, any other integer bounds the displayed count. -/
def limitHit (limit : Option Int) (displayed : Nat) : Bool :=
  match limit with
  | some l => decide (l ≠ 0) && decide (l ≤ (displayed : Int))
  | none => false

/-- The warning printed when the loop body raises on record `idx`. -/
def warnLines (idx : Nat) (e : PyError) : List String :=
  ["⚠ Warning: Error processing record " ++ toString idx ++ ": " ++ pyErrStr e,
   sep50]

/-- The `for idx, record in enumerate(self.data, start=1)` loop of
`display_data`: returns the printed lines and the final
`displayed_count`.  `idx` is the 1-based index of the head record and
`displayed` the count accumulated so far. -/
def displayLoop (api_type : String) (limit : Option Int) (flt : Option (JVal → Bool)) :
    List JVal → Nat → Nat → List String × Nat
  | [], _, displayed => ([], displayed)
  | r :: rest, idx, displayed =>
    if passesFilter flt r then
      match formatRecord api_type idx r with
      | .error e =>
        let res := displayLoop api_type limit flt rest (idx + 1) displayed
        (warnLines idx e ++ res.1, res.2)
      | .ok blk =>
        if limitHit limit (displayed + 1) then (blk, displayed + 1)
        else
          let res := displayLoop api_type limit flt rest (idx + 1) (displayed + 1)
          (blk ++ res.1, res.2)
    else
      displayLoop api_type limit flt rest (idx + 1) displayed

/-- The notice printed when `self.data` is unset or falsy. -/
def noDataMsg : String := "No data available. Please fetch data first."

/-- The notice printed when the loop displayed nothing. -/
def noRecordsMsg : String := "No records matched the filter criteria."

/-- `PublicAPIFetcher.display_data`: the call's outcome (normal return or
an escaped exception from iterating a non-iterable store) and the printed
lines. -/
def display_data (s : Session) (limit : Option Int) (flt : Option (JVal → Bool)) :
    PyResult Unit × List String :=
  match s.data with
  | none => (.ok (), [noDataMsg])
  | some d =>
    if jTruthy d then
      match jIter d with
      | .error e => (.exn e, [])
      | .ok items =>
        let res := displayLoop s.api_type limit flt items 1 0
        (.ok (), res.1 ++ (if res.2 = 0 then [noRecordsMsg] else []))
    else (.ok (), [noDataMsg])

/-- `PublicAPIFetcher.get_count`: `len(self.data) if self.data else 0`. -/
def get_count (s : Session) : PyResult Nat :=
  match s.data with
  | none => .ok 0
  | some d =>
    if jTruthy d then
      match jLen d with
      | .ok n => .ok n
      | .error e => .exn e
    else .ok 0

/-- The session `__init__` produces for a valid identifier (a convenience
for concrete instances in statements; for the three registry keys it equals
the `init` result). -/
def mkSession (api_type : String) : Session :=
  { api_type := api_type,
    api_config := (lookupAPI api_type).getD { url := "", name := "", fields := [] },
    data := none }

/-- The fetch outcomes handled by an `except` clause of `fetch_data`:
timeout, connection failure, another request-level failure, an error HTTP
status, or an undecodable body. -/
def isFailureOutcome : FetchOutcome → Bool
  | .timeout => true
  | .connError => true
  | .reqError _ => true
  | .response status _ body =>
    raiseForStatusFails status ||
      (match body with | .error _ => true | .ok _ => false)

/-- Whether the dispatched formatter returns normally on this record. -/
def fmtOk (api_type : String) (idx : Nat) (r : JVal) : Bool :=
  match formatRecord api_type idx r with
  | .ok _ => true
  | .error _ => false

/-- The block the dispatched formatter prints for this record (empty when
it raises instead). -/
def okBlock (api_type : String) (idx : Nat) (r : JVal) : List String :=
  match formatRecord api_type idx r with
  | .ok blk => blk
  | .error _ => []

/-- The blocks of a record list rendered in order, the head record carrying
display index `idx`. -/
def blocksFrom (api_type : String) (idx : Nat) : List JVal → List String
  | [] => []
  | r :: rest => okBlock api_type idx r ++ blocksFrom api_type (idx + 1) rest

/-- Whether `needle` occurs as a contiguous run starting at some position
of `hay`. -/
def occursIn (needle : List Char) : List Char → Bool
  | [] => needle.isEmpty
  | c :: rest => ((c :: rest).take needle.length == needle) || occursIn needle rest

/-- Whether `needle` occurs as a contiguous substring of `hay`. -/
def occurs (needle hay : String) : Bool :=
  occursIn needle.data hay.data

/-- Whether a stored value is a finite sequence of key-value mappings, the
shape §3 of the specification asserts for `records`. -/
def isRecordSeq : JVal → Bool
  | .arr xs => xs.all (fun x => match x with | .obj _ => true | _ => false)
  | _ => false

/-- The success report `fetch_data` prints, with the record count. -/
def successLine (n : Nat) : String :=
  "✓ Successfully fetched " ++ toString n ++ " records.\n"

end PublicAPIFetcher

open PublicAPIFetcher

/-! ### Helper lemmas -/

lemma dictGet_of_lookup_none {kvs : List (String × JVal)} {k : String} {d : JVal}
    (h : dictLookup kvs k = none) : dictGet kvs k d = d := by
  simp [dictGet, h]

lemma dictGet_of_lookup_some {kvs : List (String × JVal)} {k : String} {d v : JVal}
    (h : dictLookup kvs k = some v) : dictGet kvs k d = v := by
  simp [dictGet, h]

lemma fetch_data_failure (s : Session) (o : FetchOutcome) (h : isFailureOutcome o = true) :
    (fetch_data s o).1 = .ok false ∧ (fetch_data s o).2.1 = s := by
  cases o with
  | timeout => exact ⟨rfl, rfl⟩
  | connError => exact ⟨rfl, rfl⟩
  | reqError emsg => exact ⟨rfl, rfl⟩
  | response status errStr body =>
    simp only [isFailureOutcome, Bool.or_eq_true] at h
    rcases h with h | h
    · simp [fetch_data, h]
    · cases body with
      | error emsg =>
        cases hr : raiseForStatusFails status <;> simp [fetch_data, hr]
      | ok j => simp at h

lemma fmtOk_ok {api : String} {idx : Nat} {r : JVal} (h : fmtOk api idx r = true) :
    formatRecord api idx r = .ok (okBlock api idx r) := by
  unfold fmtOk okBlock at *
  cases hf : formatRecord api idx r with
  | ok blk => rfl
  | error e => rw [hf] at h; cases h

lemma allOk_tail {api : String} {r : JVal} {rest : List JVal} {idx : Nat}
    (h : ∀ i, i < (r :: rest).length → fmtOk api (idx + i) ((r :: rest).getD i .null) = true) :
    ∀ i, i < rest.length → fmtOk api (idx + 1 + i) (rest.getD i .null) = true := by
  intro i hi
  have := h (i + 1) (by simpa using Nat.succ_lt_succ hi)
  simpa [Nat.add_assoc, Nat.add_comm 1 i] using this

lemma displayLoop_all_ok_none_none (api : String) (rs : List JVal) (idx d : Nat)
    (h : ∀ i, i < rs.length → fmtOk api (idx + i) (rs.getD i .null) = true) :
    displayLoop api none none rs idx d = (blocksFrom api idx rs, d + rs.length) := by
  induction rs generalizing idx d with
  | nil => simp [displayLoop, blocksFrom]
  | cons r rest ih =>
    have h0 : formatRecord api idx r = .ok (okBlock api idx r) :=
      fmtOk_ok (by simpa using h 0 (by simp))
    simp only [displayLoop, passesFilter, h0, limitHit, blocksFrom]
    rw [ih (idx + 1) (d + 1) (allOk_tail h)]
    simp [List.length_cons]
    omega

lemma displayLoop_all_ok_limit (api : String) (k : Nat) (rs : List JVal) (idx d : Nat)
    (hok : ∀ i, i < rs.length → fmtOk api (idx + i) (rs.getD i .null) = true)
    (hd : d < k) (hk : k ≤ d + rs.length) :
    displayLoop api (some (k : Int)) none rs idx d =
      (blocksFrom api idx (rs.take (k - d)), k) := by
  induction rs generalizing idx d with
  | nil => simp at hk; omega
  | cons r rest ih =>
    have h0 : formatRecord api idx r = .ok (okBlock api idx r) :=
      fmtOk_ok (by simpa using hok 0 (by simp))
    simp only [displayLoop, passesFilter, h0]
    rcases Nat.lt_or_ge (d + 1) k with hlt | hge
    · have hhit : limitHit (some (k : Int)) (d + 1) = false := by
        simp only [limitHit, Bool.and_eq_false_iff]
        right
        simp
        exact_mod_cast hlt
      rw [hhit]
      simp only [Bool.false_eq_true, if_false]
      rw [ih (idx + 1) (d + 1) (allOk_tail hok) hlt (by simp at hk ⊢; omega)]
      have htake : (r :: rest).take (k - d) = r :: rest.take (k - (d + 1)) := by
        have : k - d = (k - (d + 1)) + 1 := by omega
        rw [this, List.take_succ_cons]
      rw [htake]
      simp [blocksFrom]
    · have hkd : k = d + 1 := by omega
      have hhit : limitHit (some (k : Int)) (d + 1) = true := by
        simp only [limitHit, Bool.and_eq_true, decide_eq_true_eq]
        constructor
        · simp; omega
        · exact_mod_cast Nat.le_of_eq hkd
      rw [hhit]
      simp only [if_true]
      have : k - d = 1 := by omega
      rw [this]
      simp [blocksFrom, hkd]

lemma displayLoop_skip (api : String) (limit : Option Int) (flt : JVal → Bool)
    (r : JVal) (rest : List JVal) (idx d : Nat) (h : flt r = false) :
    displayLoop api limit (some flt) (r :: rest) idx d
      = displayLoop api limit (some flt) rest (idx + 1) d := by
  simp [displayLoop, passesFilter, h]

lemma displayLoop_limit_zero (api : String) (flt : Option (JVal → Bool))
    (rs : List JVal) (idx d : Nat) :
    displayLoop api (some 0) flt rs idx d = displayLoop api none flt rs idx d := by
  induction rs generalizing idx d with
  | nil => rfl
  | cons r rest ih =>
    simp only [displayLoop]
    cases hp : passesFilter flt r
    · simp [ih]
    · cases hf : formatRecord api idx r with
      | error e => simp [ih]
      | ok blk => simp [limitHit, ih]

lemma jGet_obj (kvs : List (String × JVal)) (k : String) (d : JVal) :
    jGet (.obj kvs) k d = .ok (dictGet kvs k d) := rfl

lemma display_user_obj_ok (idx : Nat) (kvs : List (String × JVal)) (lines : List String)
    (h : display_user idx (.obj kvs) = .ok lines) :
    ∃ city, jGet (dictGet kvs "address" (.obj [])) "city" (.str "N/A") = .ok city ∧
      lines = ["User " ++ toString idx ++ ":",
               "Name: " ++ pyStr (dictGet kvs "name" (.str "N/A")),
               "Username: " ++ pyStr (dictGet kvs "username" (.str "N/A")),
               "Email: " ++ pyStr (dictGet kvs "email" (.str "N/A")),
               "City: " ++ pyStr city,
               sep24] := by
  cases hc : jGet (dictGet kvs "address" (.obj [])) "city" (.str "N/A") with
  | error e =>
    rw [display_user] at h
    simp only [jGet_obj, bind, Except.bind, hc, Functor.map, Except.map] at h
    exact Except.noConfusion h
  | ok c =>
    rw [display_user] at h
    simp only [jGet_obj, bind, Except.bind, hc, Functor.map, Except.map, pure,
      Except.pure, Except.ok.injEq] at h
    exact ⟨c, rfl, h.symm⟩

lemma display_random_user_obj_ok (idx : Nat) (kvs : List (String × JVal))
    (lines : List String) (h : display_random_user idx (.obj kvs) = .ok lines) :
    ∃ firstName lastName city country,
      jGet (dictGet kvs "name" (.obj [])) "first" (.str "") = .ok firstName ∧
      jGet (dictGet kvs "name" (.obj [])) "last" (.str "") = .ok lastName ∧
      jGet (dictGet kvs "location" (.obj [])) "city" (.str "N/A") = .ok city ∧
      jGet (dictGet kvs "location" (.obj [])) "country" (.str "N/A") = .ok country ∧
      lines = ["User " ++ toString idx ++ ":",
               "Name: " ++ (if strStrip (pyStr firstName ++ " " ++ pyStr lastName) = ""
                            then "N/A" else strStrip (pyStr firstName ++ " " ++ pyStr lastName)),
               "Email: " ++ pyStr (dictGet kvs "email" (.str "N/A")),
               "City: " ++ pyStr city,
               "Country: " ++ pyStr country,
               sep24] := by
  rw [display_random_user] at h
  cases hf : jGet (dictGet kvs "name" (.obj [])) "first" (.str "") with
  | error e =>
    simp only [jGet_obj, bind, Except.bind, hf] at h
    exact Except.noConfusion h
  | ok firstName =>
  cases hl : jGet (dictGet kvs "name" (.obj [])) "last" (.str "") with
  | error e =>
    simp only [jGet_obj, bind, Except.bind, hf, hl] at h
    exact Except.noConfusion h
  | ok lastName =>
  cases hc : jGet (dictGet kvs "location" (.obj [])) "city" (.str "N/A") with
  | error e =>
    simp only [jGet_obj, bind, Except.bind, hf, hl, hc] at h
    exact Except.noConfusion h
  | ok city =>
  cases hco : jGet (dictGet kvs "location" (.obj [])) "country" (.str "N/A") with
  | error e =>
    simp only [jGet_obj, bind, Except.bind, hf, hl, hc, hco] at h
    exact Except.noConfusion h
  | ok country =>
    simp only [jGet_obj, bind, Except.bind, hf, hl, hc, hco, Functor.map, Except.map,
      pure, Except.pure, Except.ok.injEq] at h
    exact ⟨firstName, lastName, city, country, rfl, rfl, rfl, rfl, h.symm⟩

lemma display_crypto_obj_ok (idx : Nat) (kvs : List (String × JVal))
    (lines : List String) (h : display_crypto idx (.obj kvs) = .ok lines) :
    ∃ symbol, jUpper (dictGet kvs "symbol" (.str "N/A")) = .ok symbol ∧
      lines = ["Crypto " ++ toString idx ++ ":",
               "Name: " ++ pyStr (dictGet kvs "name" (.str "N/A")),
               "Symbol: " ++ symbol,
               (if pyIsNumber (dictGet kvs "current_price" (.num 0 0))
                then "Current Price: $" ++ formatFixed
                  (pyNumVal (dictGet kvs "current_price" (.num 0 0))).1
                  (pyNumVal (dictGet kvs "current_price" (.num 0 0))).2 2
                else "Price: " ++ pyStr (dictGet kvs "current_price" (.num 0 0))),
               (if pyIsNumber (dictGet kvs "market_cap" (.num 0 0))
                then "Market Cap: $" ++ formatFixed
                  (pyNumVal (dictGet kvs "market_cap" (.num 0 0))).1
                  (pyNumVal (dictGet kvs "market_cap" (.num 0 0))).2 0
                else "Market Cap: " ++ pyStr (dictGet kvs "market_cap" (.num 0 0))),
               sep24] := by
  rw [display_crypto] at h
  cases hs : jUpper (dictGet kvs "symbol" (.str "N/A")) with
  | error e =>
    simp only [jGet_obj, bind, Except.bind, hs] at h
    exact Except.noConfusion h
  | ok symbol =>
    simp only [jGet_obj, bind, Except.bind, hs, Functor.map, Except.map, pure,
      Except.pure, Except.ok.injEq] at h
    exact ⟨symbol, rfl, h.symm⟩

/-! ### Claims -/

/-- C1, counterexample: the claim says the fetch operation never raises an
error past the caller for any decoded JSON value.  But on a 2xx response
whose body decodes to `null` (profile jsonplaceholder), `self.data` is set
to `None` and `len(self.data)` raises a `TypeError` that no `except` clause
of `fetch_data` catches, so the exception escapes to the caller instead of
a boolean result. -/
theorem claim1_counterexample :
    (fetch_data (mkSession "jsonplaceholder")
        (.response 200 "" (.ok .null))).1
      = .exn (.typeError "object of type 'NoneType' has no len()") := by
  rfl

/-- C1, amended: every transport-level or decode failure (timeout,
connection failure, 4xx/5xx status, other request error, undecodable body)
is caught at the fetch boundary and converted to the boolean `False`; only
a successfully decoded body whose record extraction or length computation
fails can raise past the caller. -/
theorem claim1_fetch_boolean_on_caught_errors (s : Session) (o : FetchOutcome)
    (h : isFailureOutcome o = true) :
    (fetch_data s o).1 = .ok false :=
  (fetch_data_failure s o h).1

/-- Witness for C1's amended theorem at a concrete timed-out fetch. -/
theorem claim1_witness :
    isFailureOutcome .timeout = true ∧
      (fetch_data (mkSession "jsonplaceholder") .timeout).1 = .ok false :=
  ⟨rfl, claim1_fetch_boolean_on_caught_errors (mkSession "jsonplaceholder") .timeout rfl⟩

/-- C2, counterexample: the claim says a failing fetch leaves the record
store unset for every session state, including one whose previous fetch
succeeded.  After a successful fetch of one record, a subsequent HTTP 500
fetch returns failure but the store still holds the old record, and display
renders that record instead of the "no data available" notice. -/
theorem claim2_counterexample :
    let s1 := (fetch_data (mkSession "jsonplaceholder")
      (.response 200 "" (.ok (.arr [.obj []])))).2.1
    let r := fetch_data s1 (.response 500 "500 Server Error" (.ok .null))
    r.1 = .ok false ∧
      r.2.1.data = some (.arr [.obj []]) ∧
      (display_data r.2.1 none none).2
        = ["User 1:", "Name: N/A", "Username: N/A", "Email: N/A", "City: N/A", sep24] ∧
      (display_data r.2.1 none none).2 ≠ [noDataMsg] := by
  exact ⟨rfl, rfl, rfl, by decide⟩

/-- C2, amended: a failing fetch returns failure and leaves the record
store unchanged (not unconditionally unset); in particular on a session
with no prior successful fetch the store is still unset afterwards and a
subsequent display emits the "no data available" notice. -/
theorem claim2_failed_fetch_preserves_store (s : Session) (o : FetchOutcome)
    (h : isFailureOutcome o = true) :
    (fetch_data s o).1 = .ok false ∧
      (fetch_data s o).2.1 = s ∧
      (s.data = none →
        display_data (fetch_data s o).2.1 none none = (.ok (), [noDataMsg])) := by
  obtain ⟨h1, h2⟩ := fetch_data_failure s o h
  refine ⟨h1, h2, fun hd => ?_⟩
  rw [h2]
  simp [display_data, hd]

/-- Witness for C2's amended theorem at a concrete HTTP 500 fetch on a
fresh session. -/
theorem claim2_witness :
    isFailureOutcome (.response 500 "500 Server Error" (.ok .null)) = true ∧
      ((fetch_data (mkSession "jsonplaceholder")
          (.response 500 "500 Server Error" (.ok .null))).1 = .ok false ∧
        (fetch_data (mkSession "jsonplaceholder")
          (.response 500 "500 Server Error" (.ok .null))).2.1 = mkSession "jsonplaceholder" ∧
        ((mkSession "jsonplaceholder").data = none →
          display_data (fetch_data (mkSession "jsonplaceholder")
            (.response 500 "500 Server Error" (.ok .null))).2.1 none none
            = (.ok (), [noDataMsg]))) :=
  ⟨rfl, claim2_failed_fetch_preserves_store (mkSession "jsonplaceholder")
    (.response 500 "500 Server Error" (.ok .null)) rfl⟩

/-- C9, counterexample: the claim says every successful fetch stores a
sequence of mappings, for every JSON body the server may return.  But a 2xx
response whose body is the JSON string `"hello"` (profile jsonplaceholder)
is stored as-is: `len` succeeds on the string, `fetch_data` returns success
and the record store holds a string, not a sequence of mappings. -/
theorem claim9_counterexample :
    let r := fetch_data (mkSession "jsonplaceholder")
      (.response 200 "" (.ok (.str "hello")))
    r.1 = .ok true ∧
      r.2.1.data = some (.str "hello") ∧
      isRecordSeq (.str "hello") = false :=
  ⟨rfl, rfl, rfl⟩

/-- C9, amended: after a fetch the store is either unchanged or holds
exactly the value extracted from the decoded body (the `results` value for
randomuser, the body itself otherwise); a fetch that returns success
guarantees only that the stored value has a length (a list, string or
mapping), not that it is a sequence of mappings. -/
theorem claim9_store_shape (s : Session) (o : FetchOutcome) :
    ((fetch_data s o).2.1.data = s.data ∨
      ∃ st es j v, o = .response st es (.ok j) ∧
        extractRecords s.api_type j = .ok v ∧
        (fetch_data s o).2.1.data = some v) ∧
    ((fetch_data s o).1 = .ok true →
      ∃ v n, (fetch_data s o).2.1.data = some v ∧ jLen v = .ok n) := by
  cases o with
  | timeout => exact ⟨Or.inl rfl, fun h => by simp [fetch_data] at h⟩
  | connError => exact ⟨Or.inl rfl, fun h => by simp [fetch_data] at h⟩
  | reqError emsg => exact ⟨Or.inl rfl, fun h => by simp [fetch_data] at h⟩
  | response st es body =>
    cases hr : raiseForStatusFails st with
    | true =>
      constructor
      · left
        simp [fetch_data, hr]
      · intro h
        simp [fetch_data, hr] at h
    | false =>
      cases body with
      | error m =>
        constructor
        · left
          simp [fetch_data, hr]
        · intro h
          simp [fetch_data, hr] at h
      | ok j =>
        cases he : extractRecords s.api_type j with
        | error e =>
          constructor
          · left
            simp [fetch_data, hr, he]
          · intro h
            simp [fetch_data, hr, he] at h
        | ok v =>
          cases hl : jLen v with
          | error e =>
            constructor
            · exact Or.inr ⟨st, es, j, v, rfl, he, by simp [fetch_data, hr, he, hl]⟩
            · intro h
              simp [fetch_data, hr, he, hl] at h
          | ok n =>
            constructor
            · exact Or.inr ⟨st, es, j, v, rfl, he, by simp [fetch_data, hr, he, hl]⟩
            · intro h
              exact ⟨v, n, by simp [fetch_data, hr, he, hl], hl⟩

/-- Witness for C9's amended theorem at a concrete successful fetch of an
empty record list. -/
theorem claim9_witness :
    ((fetch_data (mkSession "coingecko") (.response 200 "" (.ok (.arr [])))).2.1.data
        = (mkSession "coingecko").data ∨
      ∃ st es j v, (.response 200 "" (.ok (.arr [])) : FetchOutcome) = .response st es (.ok j) ∧
        extractRecords (mkSession "coingecko").api_type j = .ok v ∧
        (fetch_data (mkSession "coingecko") (.response 200 "" (.ok (.arr [])))).2.1.data = some v) ∧
    ((fetch_data (mkSession "coingecko") (.response 200 "" (.ok (.arr [])))).1 = .ok true →
      ∃ v n, (fetch_data (mkSession "coingecko")
          (.response 200 "" (.ok (.arr [])))).2.1.data = some v ∧ jLen v = .ok n) :=
  claim9_store_shape (mkSession "coingecko") (.response 200 "" (.ok (.arr [])))

/-- C10: calling display with `limit = 0` behaves exactly as if no limit
were given, because `if limit and ...` treats `0` as falsy: every stored
record passing the predicate is rendered, rather than zero records. -/
theorem claim10_limit_zero_is_no_limit (s : Session) (flt : Option (JVal → Bool)) :
    display_data s (some 0) flt = display_data s none flt := by
  unfold display_data
  cases s.data with
  | none => rfl
  | some d =>
    cases ht : jTruthy d with
    | false => simp [ht]
    | true =>
      simp only [ht, if_true]
      cases hi : jIter d with
      | error e => rfl
      | ok items => simp [displayLoop_limit_zero]

/-- C3: on a 2xx response with a decodable body, the randomuser profile
stores the `results` value of the decoded object (empty list when absent),
every other profile stores the decoded body itself, and whenever the fetch
returns normally it returns success and prints the record count. -/
theorem claim3_success_extraction (s : Session) (st : Nat) (es : String) (j : JVal)
    (h : raiseForStatusFails st = false) :
    (s.api_type = "randomuser" → ∀ kvs, j = .obj kvs →
      (fetch_data s (.response st es (.ok j))).2.1.data
        = some (dictGet kvs "results" (.arr []))) ∧
    (s.api_type ≠ "randomuser" →
      (fetch_data s (.response st es (.ok j))).2.1.data = some j) ∧
    (∀ b, (fetch_data s (.response st es (.ok j))).1 = .ok b →
      b = true ∧ ∃ v n, (fetch_data s (.response st es (.ok j))).2.1.data = some v ∧
        jLen v = .ok n ∧ successLine n ∈ (fetch_data s (.response st es (.ok j))).2.2) := by
  refine ⟨?_, ?_, ?_⟩
  · intro ha kvs hj
    subst hj
    have he : extractRecords s.api_type (.obj kvs) = .ok (dictGet kvs "results" (.arr [])) := by
      simp [extractRecords, ha, jGet_obj]
    cases hl : jLen (dictGet kvs "results" (.arr [])) with
    | error e => simp [fetch_data, h, he, hl]
    | ok n => simp [fetch_data, h, he, hl]
  · intro ha
    have he : extractRecords s.api_type j = .ok j := by
      simp [extractRecords, ha]
    cases hl : jLen j with
    | error e => simp [fetch_data, h, he, hl]
    | ok n => simp [fetch_data, h, he, hl]
  · intro b hb
    cases he : extractRecords s.api_type j with
    | error e => simp [fetch_data, h, he] at hb
    | ok v =>
      cases hl : jLen v with
      | error e => simp [fetch_data, h, he, hl] at hb
      | ok n =>
        have hb' : b = true := by
          simp [fetch_data, h, he, hl] at hb
          exact hb
        refine ⟨hb', v, n, by simp [fetch_data, h, he, hl], hl, ?_⟩
        simp [fetch_data, h, he, hl, successLine]

/-- Witness for C3 at a concrete randomuser fetch whose body is an object
with a `results` list. -/
theorem claim3_witness :
    ((mkSession "randomuser").api_type = "randomuser" →
      ∀ kvs, (.obj [("results", .arr [.obj []])] : JVal) = .obj kvs →
        (fetch_data (mkSession "randomuser")
          (.response 200 "" (.ok (.obj [("results", .arr [.obj []])])))).2.1.data
          = some (dictGet kvs "results" (.arr []))) ∧
    ((mkSession "randomuser").api_type ≠ "randomuser" →
      (fetch_data (mkSession "randomuser")
        (.response 200 "" (.ok (.obj [("results", .arr [.obj []])])))).2.1.data
        = some (.obj [("results", .arr [.obj []])])) ∧
    (∀ b, (fetch_data (mkSession "randomuser")
        (.response 200 "" (.ok (.obj [("results", .arr [.obj []])])))).1 = .ok b →
      b = true ∧ ∃ v n, (fetch_data (mkSession "randomuser")
          (.response 200 "" (.ok (.obj [("results", .arr [.obj []])])))).2.1.data = some v ∧
        jLen v = .ok n ∧ successLine n ∈ (fetch_data (mkSession "randomuser")
          (.response 200 "" (.ok (.obj [("results", .arr [.obj []])])))).2.2) :=
  claim3_success_extraction (mkSession "randomuser") 200 ""
    (.obj [("results", .arr [.obj []])]) rfl

/-- C8: constructing with each of the three supported identifiers
succeeds; any other identifier fails with the `ValueError` whose message
lists the valid identifiers (each occurs in the message). -/
theorem claim8_constructor_validation (a : String) :
    (a ∈ ["jsonplaceholder", "randomuser", "coingecko"] →
      ∃ cfg, init a = .ok { api_type := a, api_config := cfg, data := none }) ∧
    (a ∉ ["jsonplaceholder", "randomuser", "coingecko"] →
      init a = .error (.valueError invalidApiMsg)) ∧
    occurs "jsonplaceholder" invalidApiMsg = true ∧
    occurs "randomuser" invalidApiMsg = true ∧
    occurs "coingecko" invalidApiMsg = true := by
  refine ⟨?_, ?_, by decide, by decide, by decide⟩
  · intro ha
    simp only [List.mem_cons, List.not_mem_nil, or_false] at ha
    rcases ha with rfl | rfl | rfl
    · exact ⟨_, rfl⟩
    · exact ⟨_, rfl⟩
    · exact ⟨_, rfl⟩
  · intro ha
    simp only [List.mem_cons, List.not_mem_nil, or_false, not_or] at ha
    obtain ⟨h1, h2, h3⟩ := ha
    have e1 : ("jsonplaceholder" == a) = false := beq_eq_false_iff_ne.mpr (Ne.symm h1)
    have e2 : ("randomuser" == a) = false := beq_eq_false_iff_ne.mpr (Ne.symm h2)
    have e3 : ("coingecko" == a) = false := beq_eq_false_iff_ne.mpr (Ne.symm h3)
    simp [init, lookupAPI, APIS, List.find?, e1, e2, e3]

/-- Witness for C8 at the concrete unknown identifier `"sqlite"`. -/
theorem claim8_witness :
    (("sqlite" : String) ∈ ["jsonplaceholder", "randomuser", "coingecko"] →
      ∃ cfg, init "sqlite" = .ok { api_type := "sqlite", api_config := cfg, data := none }) ∧
    (("sqlite" : String) ∉ ["jsonplaceholder", "randomuser", "coingecko"] →
      init "sqlite" = .error (.valueError invalidApiMsg)) ∧
    occurs "jsonplaceholder" invalidApiMsg = true ∧
    occurs "randomuser" invalidApiMsg = true ∧
    occurs "coingecko" invalidApiMsg = true :=
  claim8_constructor_validation "sqlite"

/-- C4: for a non-empty stored record list on which no formatter raises,
display with no predicate and no limit renders exactly one block per
record, in original order, with 1-based indices; display with a positive
limit `k` smaller than the record count and no predicate renders exactly
the first `k` blocks and stops; and a record rejected by a supplied
predicate is skipped, advancing the index but neither the displayed count
nor the limit. -/
theorem claim4_display_order_limit_filter (api : String) (rs : List JVal) (k : Nat)
    (flt : JVal → Bool)
    (hne : rs ≠ [])
    (hok : ∀ i, i < rs.length → fmtOk api (1 + i) (rs.getD i .null) = true)
    (hk0 : 0 < k) (hklt : k < rs.length) :
    (∀ cfg, display_data { api_type := api, api_config := cfg, data := some (.arr rs) } none none
        = (.ok (), blocksFrom api 1 rs)) ∧
    (∀ cfg, display_data { api_type := api, api_config := cfg, data := some (.arr rs) }
        (some (k : Int)) none
        = (.ok (), blocksFrom api 1 (rs.take k))) ∧
    (∀ limit r rest idx d, flt r = false →
      displayLoop api limit (some flt) (r :: rest) idx d
        = displayLoop api limit (some flt) rest (idx + 1) d) := by
  have htr : jTruthy (.arr rs) = true := by
    simp [jTruthy, List.isEmpty_iff, hne]
  have hlen : rs.length ≠ 0 := fun hz => hne (List.length_eq_zero.mp hz)
  refine ⟨?_, ?_, ?_⟩
  · intro cfg
    simp only [display_data, htr, if_true, jIter]
    rw [displayLoop_all_ok_none_none api rs 1 0 hok]
    simp [hlen]
  · intro cfg
    simp only [display_data, htr, if_true, jIter]
    rw [displayLoop_all_ok_limit api k rs 1 0 hok hk0 (by omega)]
    have hkne : k ≠ 0 := by omega
    simp [hkne]
  · intro limit r rest idx d hr
    exact displayLoop_skip api limit flt r rest idx d hr

/-- Witness for C4 at a concrete two-record list, `k = 1`, and the
everywhere-false predicate. -/
theorem claim4_witness :
    (([JVal.obj [], JVal.obj []] : List JVal) ≠ []) ∧
    (∀ i, i < ([JVal.obj [], JVal.obj []] : List JVal).length →
      fmtOk "jsonplaceholder" (1 + i)
        (([JVal.obj [], JVal.obj []] : List JVal).getD i .null) = true) ∧
    0 < 1 ∧ 1 < ([JVal.obj [], JVal.obj []] : List JVal).length ∧
    ((∀ cfg, display_data
        { api_type := "jsonplaceholder", api_config := cfg,
          data := some (.arr [JVal.obj [], JVal.obj []]) } none none
        = (.ok (), blocksFrom "jsonplaceholder" 1 [JVal.obj [], JVal.obj []])) ∧
     (∀ cfg, display_data
        { api_type := "jsonplaceholder", api_config := cfg,
          data := some (.arr [JVal.obj [], JVal.obj []]) } (some ((1 : Nat) : Int)) none
        = (.ok (), blocksFrom "jsonplaceholder" 1 (([JVal.obj [], JVal.obj []] : List JVal).take 1))) ∧
     (∀ limit r rest idx d, (fun _ => false : JVal → Bool) r = false →
       displayLoop "jsonplaceholder" limit (some (fun _ => false)) (r :: rest) idx d
         = displayLoop "jsonplaceholder" limit (some (fun _ => false)) rest (idx + 1) d)) :=
  ⟨List.cons_ne_nil _ _, by decide, by decide, by decide,
    claim4_display_order_limit_filter "jsonplaceholder" [JVal.obj [], JVal.obj []] 1
      (fun _ => false) (List.cons_ne_nil _ _) (by decide) (by decide) (by decide)⟩

/-- C5: when the filter passes a record but the dispatched formatter raises
on it, the display loop prints the warning naming that record's 1-based
index followed by the 50-dash separator, does not increase the displayed
count, and continues with the remaining records. -/
theorem claim5_render_error_isolated (api : String) (limit : Option Int)
    (flt : Option (JVal → Bool)) (r : JVal) (rest : List JVal) (idx d : Nat) (e : PyError)
    (hp : passesFilter flt r = true) (hf : formatRecord api idx r = .error e) :
    displayLoop api limit flt (r :: rest) idx d
      = (warnLines idx e ++ (displayLoop api limit flt rest (idx + 1) d).1,
         (displayLoop api limit flt rest (idx + 1) d).2) ∧
    warnLines idx e
      = ["⚠ Warning: Error processing record " ++ toString idx ++ ": " ++ pyErrStr e,
         sep50] := by
  refine ⟨?_, rfl⟩
  simp [displayLoop, hp, hf]

/-- Witness for C5 at a concrete jsonplaceholder record whose `address`
value is a string, on which the formatter raises `AttributeError`. -/
theorem claim5_witness :
    passesFilter none (.obj [("address", .str "x")]) = true ∧
    formatRecord "jsonplaceholder" 1 (.obj [("address", .str "x")])
      = .error (.attributeError "'str' object has no attribute 'get'") ∧
    (displayLoop "jsonplaceholder" none none (.obj [("address", .str "x")] :: []) 1 0
      = (warnLines 1 (.attributeError "'str' object has no attribute 'get'")
          ++ (displayLoop "jsonplaceholder" none none [] 2 0).1,
         (displayLoop "jsonplaceholder" none none [] 2 0).2) ∧
     warnLines 1 (.attributeError "'str' object has no attribute 'get'")
      = ["⚠ Warning: Error processing record " ++ toString 1 ++ ": "
          ++ pyErrStr (.attributeError "'str' object has no attribute 'get'"),
         sep50]) :=
  ⟨rfl, rfl,
    claim5_render_error_isolated "jsonplaceholder" none none (.obj [("address", .str "x")])
      [] 1 0 (.attributeError "'str' object has no attribute 'get'") rfl rfl⟩

lemma formatRecord_jp (idx : Nat) (r : JVal) :
    formatRecord "jsonplaceholder" idx r = display_user idx r := rfl

lemma formatRecord_ru (idx : Nat) (r : JVal) :
    formatRecord "randomuser" idx r = display_random_user idx r := rfl

lemma formatRecord_cg (idx : Nat) (r : JVal) :
    formatRecord "coingecko" idx r = display_crypto idx r := rfl

/-- C6: fields absent from a record never make the formatter raise — the
record with every expected field missing renders a full block of
placeholders ("N/A", and the 0-derived currency values for coingecko's
numeric fields) — and whenever the formatter returns a block, each absent
field occupies its position in the block with its placeholder, at either
nesting level: top-level fields, jsonplaceholder's `address.city`,
randomuser's `name.first`/`name.last` and `location.city`/
`location.country`. -/
theorem claim6_missing_fields_render_placeholders (idx : Nat) :
    (formatRecord "jsonplaceholder" idx (.obj [])
      = .ok ["User " ++ toString idx ++ ":", "Name: N/A", "Username: N/A",
             "Email: N/A", "City: N/A", sep24]) ∧
    (formatRecord "randomuser" idx (.obj [])
      = .ok ["User " ++ toString idx ++ ":", "Name: N/A", "Email: N/A",
             "City: N/A", "Country: N/A", sep24]) ∧
    (formatRecord "coingecko" idx (.obj [])
      = .ok ["Crypto " ++ toString idx ++ ":", "Name: N/A", "Symbol: N/A",
             "Current Price: $0.00", "Market Cap: $0", sep24]) ∧
    (∀ kvs lines, formatRecord "jsonplaceholder" idx (.obj kvs) = .ok lines →
      (dictLookup kvs "name" = none → lines.getD 1 "" = "Name: N/A") ∧
      (dictLookup kvs "username" = none → lines.getD 2 "" = "Username: N/A") ∧
      (dictLookup kvs "email" = none → lines.getD 3 "" = "Email: N/A") ∧
      (dictLookup kvs "address" = none → lines.getD 4 "" = "City: N/A") ∧
      (∀ akvs, dictLookup kvs "address" = some (.obj akvs) →
        dictLookup akvs "city" = none → lines.getD 4 "" = "City: N/A")) ∧
    (∀ kvs lines, formatRecord "randomuser" idx (.obj kvs) = .ok lines →
      (dictLookup kvs "name" = none → lines.getD 1 "" = "Name: N/A") ∧
      (∀ nkvs, dictLookup kvs "name" = some (.obj nkvs) →
        dictLookup nkvs "first" = none → dictLookup nkvs "last" = none →
        lines.getD 1 "" = "Name: N/A") ∧
      (dictLookup kvs "email" = none → lines.getD 2 "" = "Email: N/A") ∧
      (dictLookup kvs "location" = none →
        lines.getD 3 "" = "City: N/A" ∧ lines.getD 4 "" = "Country: N/A") ∧
      (∀ lkvs, dictLookup kvs "location" = some (.obj lkvs) →
        dictLookup lkvs "city" = none → lines.getD 3 "" = "City: N/A") ∧
      (∀ lkvs, dictLookup kvs "location" = some (.obj lkvs) →
        dictLookup lkvs "country" = none → lines.getD 4 "" = "Country: N/A")) ∧
    (∀ kvs lines, formatRecord "coingecko" idx (.obj kvs) = .ok lines →
      (dictLookup kvs "name" = none → lines.getD 1 "" = "Name: N/A") ∧
      (dictLookup kvs "symbol" = none → lines.getD 2 "" = "Symbol: N/A") ∧
      (dictLookup kvs "current_price" = none →
        lines.getD 3 "" = "Current Price: $0.00") ∧
      (dictLookup kvs "market_cap" = none → lines.getD 4 "" = "Market Cap: $0")) := by
  refine ⟨rfl, rfl, rfl, ?_, ?_, ?_⟩
  · intro kvs lines h
    rw [formatRecord_jp] at h
    obtain ⟨city, hcity, rfl⟩ := display_user_obj_ok idx kvs lines h
    refine ⟨?_, ?_, ?_, ?_, ?_⟩
    · intro hn
      simp [List.getD, dictGet_of_lookup_none hn, pyStr]
    · intro hn
      simp [List.getD, dictGet_of_lookup_none hn, pyStr]
    · intro hn
      simp [List.getD, dictGet_of_lookup_none hn, pyStr]
    · intro hn
      rw [dictGet_of_lookup_none hn, jGet_obj] at hcity
      injection hcity with hx
      subst hx
      simp [List.getD, dictGet, dictLookup, pyStr]
    · intro akvs ha hcc
      rw [dictGet_of_lookup_some ha, jGet_obj, dictGet_of_lookup_none hcc] at hcity
      injection hcity with hx
      subst hx
      simp [List.getD, pyStr]
  · intro kvs lines h
    rw [formatRecord_ru] at h
    obtain ⟨firstName, lastName, city, country, hf, hl, hc, hco, rfl⟩ :=
      display_random_user_obj_ok idx kvs lines h
    refine ⟨?_, ?_, ?_, ?_, ?_, ?_⟩
    · intro hn
      rw [dictGet_of_lookup_none hn, jGet_obj] at hf hl
      injection hf with hx
      injection hl with hy
      subst hx
      subst hy
      simp [List.getD]
      decide
    · intro nkvs hname hfirst hlast
      rw [dictGet_of_lookup_some hname, jGet_obj, dictGet_of_lookup_none hfirst] at hf
      rw [dictGet_of_lookup_some hname, jGet_obj, dictGet_of_lookup_none hlast] at hl
      injection hf with hx
      injection hl with hy
      subst hx
      subst hy
      simp [List.getD]
      decide
    · intro hn
      simp [List.getD, dictGet_of_lookup_none hn, pyStr]
    · intro hn
      rw [dictGet_of_lookup_none hn, jGet_obj] at hc hco
      injection hc with hx
      injection hco with hy
      subst hx
      subst hy
      constructor
      · simp [List.getD, dictGet, dictLookup, pyStr]
      · simp [List.getD, dictGet, dictLookup, pyStr]
    · intro lkvs hloc hcity2
      rw [dictGet_of_lookup_some hloc, jGet_obj, dictGet_of_lookup_none hcity2] at hc
      injection hc with hx
      subst hx
      simp [List.getD, pyStr]
    · intro lkvs hloc hcountry2
      rw [dictGet_of_lookup_some hloc, jGet_obj, dictGet_of_lookup_none hcountry2] at hco
      injection hco with hx
      subst hx
      simp [List.getD, pyStr]
  · intro kvs lines h
    rw [formatRecord_cg] at h
    obtain ⟨symbol, hs, rfl⟩ := display_crypto_obj_ok idx kvs lines h
    refine ⟨?_, ?_, ?_, ?_⟩
    · intro hn
      simp [List.getD, dictGet_of_lookup_none hn, pyStr]
    · intro hn
      rw [dictGet_of_lookup_none hn] at hs
      injection hs with hx
      subst hx
      simp [List.getD]
      decide
    · intro hn
      simp [List.getD, dictGet_of_lookup_none hn, pyIsNumber]
      decide
    · intro hn
      simp [List.getD, dictGet_of_lookup_none hn, pyIsNumber]
      decide

/-- Witness for C6 at index `3` (the statement's inner hypotheses applied
by the theorem itself). -/
theorem claim6_witness :
    (formatRecord "jsonplaceholder" 3 (.obj [])
      = .ok ["User " ++ toString 3 ++ ":", "Name: N/A", "Username: N/A",
             "Email: N/A", "City: N/A", sep24]) ∧
    (formatRecord "randomuser" 3 (.obj [])
      = .ok ["User " ++ toString 3 ++ ":", "Name: N/A", "Email: N/A",
             "City: N/A", "Country: N/A", sep24]) ∧
    (formatRecord "coingecko" 3 (.obj [])
      = .ok ["Crypto " ++ toString 3 ++ ":", "Name: N/A", "Symbol: N/A",
             "Current Price: $0.00", "Market Cap: $0", sep24]) ∧
    (∀ kvs lines, formatRecord "jsonplaceholder" 3 (.obj kvs) = .ok lines →
      (dictLookup kvs "name" = none → lines.getD 1 "" = "Name: N/A") ∧
      (dictLookup kvs "username" = none → lines.getD 2 "" = "Username: N/A") ∧
      (dictLookup kvs "email" = none → lines.getD 3 "" = "Email: N/A") ∧
      (dictLookup kvs "address" = none → lines.getD 4 "" = "City: N/A") ∧
      (∀ akvs, dictLookup kvs "address" = some (.obj akvs) →
        dictLookup akvs "city" = none → lines.getD 4 "" = "City: N/A")) ∧
    (∀ kvs lines, formatRecord "randomuser" 3 (.obj kvs) = .ok lines →
      (dictLookup kvs "name" = none → lines.getD 1 "" = "Name: N/A") ∧
      (∀ nkvs, dictLookup kvs "name" = some (.obj nkvs) →
        dictLookup nkvs "first" = none → dictLookup nkvs "last" = none →
        lines.getD 1 "" = "Name: N/A") ∧
      (dictLookup kvs "email" = none → lines.getD 2 "" = "Email: N/A") ∧
      (dictLookup kvs "location" = none →
        lines.getD 3 "" = "City: N/A" ∧ lines.getD 4 "" = "Country: N/A") ∧
      (∀ lkvs, dictLookup kvs "location" = some (.obj lkvs) →
        dictLookup lkvs "city" = none → lines.getD 3 "" = "City: N/A") ∧
      (∀ lkvs, dictLookup kvs "location" = some (.obj lkvs) →
        dictLookup lkvs "country" = none → lines.getD 4 "" = "Country: N/A")) ∧
    (∀ kvs lines, formatRecord "coingecko" 3 (.obj kvs) = .ok lines →
      (dictLookup kvs "name" = none → lines.getD 1 "" = "Name: N/A") ∧
      (dictLookup kvs "symbol" = none → lines.getD 2 "" = "Symbol: N/A") ∧
      (dictLookup kvs "current_price" = none →
        lines.getD 3 "" = "Current Price: $0.00") ∧
      (dictLookup kvs "market_cap" = none → lines.getD 4 "" = "Market Cap: $0")) :=
  claim6_missing_fields_render_placeholders 3

/-- C7: whenever the coingecko formatter returns a block, the symbol line
carries the upper-cased symbol; a numeric `current_price` or `market_cap`
is rendered as currency with thousands separators (2 and 0 decimal places
respectively), a non-numeric one appears verbatim in the same line
position; and the claim's example record renders the two stated currency
lines. -/
theorem claim7_crypto_formatting (idx : Nat) (kvs : List (String × JVal))
    (lines : List String) :
    (formatRecord "coingecko" idx (.obj kvs) = .ok lines →
      (∀ sym, dictLookup kvs "symbol" = some (.str sym) →
        lines.getD 2 "" = "Symbol: " ++ strUpper sym) ∧
      (∀ v, dictLookup kvs "current_price" = some v → pyIsNumber v = true →
        lines.getD 3 "" = "Current Price: $" ++ formatFixed (pyNumVal v).1 (pyNumVal v).2 2) ∧
      (∀ v, dictLookup kvs "current_price" = some v → pyIsNumber v = false →
        lines.getD 3 "" = "Price: " ++ pyStr v) ∧
      (∀ v, dictLookup kvs "market_cap" = some v → pyIsNumber v = true →
        lines.getD 4 "" = "Market Cap: $" ++ formatFixed (pyNumVal v).1 (pyNumVal v).2 0) ∧
      (∀ v, dictLookup kvs "market_cap" = some v → pyIsNumber v = false →
        lines.getD 4 "" = "Market Cap: " ++ pyStr v)) ∧
    (formatRecord "coingecko" 1 (.obj [("name", .str "Bitcoin"), ("symbol", .str "btc"),
        ("current_price", .num 432505 1), ("market_cap", .num 850000000 0)])
      = .ok ["Crypto 1:", "Name: Bitcoin", "Symbol: BTC",
             "Current Price: $43,250.50", "Market Cap: $850,000,000", sep24]) := by
  refine ⟨?_, rfl⟩
  intro h
  rw [formatRecord_cg] at h
  obtain ⟨symbol, hs, rfl⟩ := display_crypto_obj_ok idx kvs lines h
  refine ⟨?_, ?_, ?_, ?_, ?_⟩
  · intro sym hsym
    rw [dictGet_of_lookup_some hsym] at hs
    injection hs with hx
    subst hx
    simp [List.getD, jUpper]
  · intro v hv hnum
    simp [List.getD, dictGet_of_lookup_some hv, hnum]
  · intro v hv hnum
    simp [List.getD, dictGet_of_lookup_some hv, hnum]
  · intro v hv hnum
    simp [List.getD, dictGet_of_lookup_some hv, hnum]
  · intro v hv hnum
    simp [List.getD, dictGet_of_lookup_some hv, hnum]

/-- Witness for C7 at the claim's example record (the general conjunct's
inner hypotheses applied by the theorem itself). -/
theorem claim7_witness :
    (formatRecord "coingecko" 1 (.obj [("name", .str "Bitcoin"), ("symbol", .str "btc"),
        ("current_price", .num 432505 1), ("market_cap", .num 850000000 0)])
      = .ok ["Crypto 1:", "Name: Bitcoin", "Symbol: BTC",
             "Current Price: $43,250.50", "Market Cap: $850,000,000", sep24] →
      (∀ sym, dictLookup [("name", .str "Bitcoin"), ("symbol", .str "btc"),
          ("current_price", .num 432505 1), ("market_cap", .num 850000000 0)] "symbol"
          = some (.str sym) →
        (["Crypto 1:", "Name: Bitcoin", "Symbol: BTC", "Current Price: $43,250.50",
          "Market Cap: $850,000,000", sep24] : List String).getD 2 ""
          = "Symbol: " ++ strUpper sym) ∧
      (∀ v, dictLookup [("name", .str "Bitcoin"), ("symbol", .str "btc"),
          ("current_price", .num 432505 1), ("market_cap", .num 850000000 0)] "current_price"
          = some v → pyIsNumber v = true →
        (["Crypto 1:", "Name: Bitcoin", "Symbol: BTC", "Current Price: $43,250.50",
          "Market Cap: $850,000,000", sep24] : List String).getD 3 ""
          = "Current Price: $" ++ formatFixed (pyNumVal v).1 (pyNumVal v).2 2) ∧
      (∀ v, dictLookup [("name", .str "Bitcoin"), ("symbol", .str "btc"),
          ("current_price", .num 432505 1), ("market_cap", .num 850000000 0)] "current_price"
          = some v → pyIsNumber v = false →
        (["Crypto 1:", "Name: Bitcoin", "Symbol: BTC", "Current Price: $43,250.50",
          "Market Cap: $850,000,000", sep24] : List String).getD 3 "" = "Price: " ++ pyStr v) ∧
      (∀ v, dictLookup [("name", .str "Bitcoin"), ("symbol", .str "btc"),
          ("current_price", .num 432505 1), ("market_cap", .num 850000000 0)] "market_cap"
          = some v → pyIsNumber v = true →
        (["Crypto 1:", "Name: Bitcoin", "Symbol: BTC", "Current Price: $43,250.50",
          "Market Cap: $850,000,000", sep24] : List String).getD 4 ""
          = "Market Cap: $" ++ formatFixed (pyNumVal v).1 (pyNumVal v).2 0) ∧
      (∀ v, dictLookup [("name", .str "Bitcoin"), ("symbol", .str "btc"),
          ("current_price", .num 432505 1), ("market_cap", .num 850000000 0)] "market_cap"
          = some v → pyIsNumber v = false →
        (["Crypto 1:", "Name: Bitcoin", "Symbol: BTC", "Current Price: $43,250.50",
          "Market Cap: $850,000,000", sep24] : List String).getD 4 ""
          = "Market Cap: " ++ pyStr v)) ∧
    (formatRecord "coingecko" 1 (.obj [("name", .str "Bitcoin"), ("symbol", .str "btc"),
        ("current_price", .num 432505 1), ("market_cap", .num 850000000 0)])
      = .ok ["Crypto 1:", "Name: Bitcoin", "Symbol: BTC",
             "Current Price: $43,250.50", "Market Cap: $850,000,000", sep24]) :=
  claim7_crypto_formatting 1
    [("name", .str "Bitcoin"), ("symbol", .str "btc"),
     ("current_price", .num 432505 1), ("market_cap", .num 850000000 0)]
    ["Crypto 1:", "Name: Bitcoin", "Symbol: BTC",
     "Current Price: $43,250.50", "Market Cap: $850,000,000", sep24]
